import Mathlib

/-!
Verification of the probe-runner scripts `test-simpleswap.py` (class
`SimpleSwapTester`) and `adaptive-tester.py` (class `AdaptiveSimpleSwapTester`).

The scripts drive a browser through a fixed list of strategy labels, click a
button, observe the resulting navigation, and append one dictionary per
completed probe attempt to an in-memory result list.  The embedding models the
browser and the external site as an *environment*: for each probe attempt the
environment supplies what the browser reported (whether an exception was
raised somewhere in the attempt, the navigated URLs, the captured console
messages, and — for the adaptive variant's monitoring phase — the page text of
each polling iteration).  The control flow of the Python functions is
transcribed into pure Lean functions of that environment.

Side effects that matter to the properties under study are recorded in an
explicit event trace: browsing-context acquisition/release, screenshots (with
their path and whether they are full-page), and the inter-strategy courtesy
sleeps of the two run loops.  `print` calls, in-attempt sleeps and the final
JSON dump have no bearing on any property and are not traced.

Python dictionaries with varying key sets (the per-attempt result records)
are modelled as a fixed record `ProbeResult` whose optional fields
(`attempt`, `final_url`, `error`) are `none` exactly when the corresponding
key is absent from the dictionary built by the source.
-/

/-- `leadMatch pat l` holds when `pat` matches the leading characters of `l`
(character-list analogue of "l starts with pat"). -/
def leadMatch : List Char → List Char → Bool
  | [], _ => true
  | _ :: _, [] => false
  | a :: as, b :: bs => a == b && leadMatch as bs

/-- `subSearch pat l` scans `l` for an occurrence of the contiguous
character sequence `pat`. -/
def subSearch (pat : List Char) : List Char → Bool
  | [] => leadMatch pat []
  | c :: rest => leadMatch pat (c :: rest) || subSearch pat rest

/-- Python's substring test `pat in s` for strings. -/
def strContains (s pat : String) : Bool := subSearch pat.data s.data

/-- Python's `str.lower()` (ASCII-faithful, which covers every string the
scripts test: provider names and the word "error"). -/
def strLower (s : String) : String := ⟨s.data.map Char.toLower⟩

/-- Python's tail slice `xs[-n:]`: the last `n` elements (the whole list when
it is shorter than `n`). -/
def lastN (n : Nat) (xs : List String) : List String := xs.drop (xs.length - n)

/-- One recorded probe outcome, mirroring the result dictionaries built in
`test_strategy` (basic, `test-simpleswap.py` lines 110–131) and
`test_strategy_with_learning` (adaptive, `adaptive-tester.py` lines 148–172).
`attempt`, `final_url` and `error` are `none` when the source dictionary does
not contain the key. -/
structure ProbeResult where
  strategy : String
  attempt : Option Nat
  timestamp : String
  success : Bool
  final_url : Option String
  error : Option String
  console_logs : List String
  notes : List String
deriving DecidableEq

/-- Traced side effects of a run: browsing-context lifecycle, screenshots
(path and full-page flag), and the fixed inter-strategy sleeps of the two
run loops. -/
inductive Event where
  | openCtx (id : Nat)
  | closeCtx (id : Nat)
  | screenshot (path : String) (fullPage : Bool)
  | interSleep (seconds : Nat)
deriving DecidableEq

/-- Update the multiset (list) of currently-open context ids by one event.
Closing a context that is not open is a no-op, matching the library's
idempotent `context.close()`. -/
def openStep (s : List Nat) : Event → List Nat
  | .openCtx i => i :: s
  | .closeCtx i => s.erase i
  | _ => s

/-- The multiset of context ids still open after processing a trace from
start state `s`. -/
def openAfter (s : List Nat) (es : List Event) : List Nat := es.foldl openStep s

/-- `walkOk s es` walks the trace and checks that after every single event at
most one browsing context is open. -/
def walkOk : List Nat → List Event → Bool
  | _, [] => true
  | s, e :: es =>
    let s' := openStep s e
    decide (s'.length ≤ 1) && walkOk s' es

/-- An event that neither opens nor closes a browsing context. -/
def ctxFree : Event → Bool
  | .openCtx _ => false
  | .closeCtx _ => false
  | _ => true

/-- The screenshots of a trace, as (path, full-page flag) pairs. -/
def screenshotEvents (es : List Event) : List (String × Bool) :=
  es.filterMap fun e => match e with
    | .screenshot p fp => some (p, fp)
    | _ => none

/-- Number of context acquisitions in a trace — one per probe attempt, since
every attempt opens exactly one fresh context. -/
def countOpen (es : List Event) : Nat :=
  (es.filter fun e => match e with | .openCtx _ => true | _ => false).length

/-- Number of fixed inter-strategy sleeps in a trace. -/
def countInterSleep (es : List Event) : Nat :=
  (es.filter fun e => match e with | .interSleep _ => true | _ => false).length

/-- `self.base_url`, shared by both scripts. -/
def base_url : String := "https://blinds123.github.io/simpleswap-realtime-test"

/-- `self.strategies`, the fixed ordered list of ten strategy labels shared by
both scripts. -/
def strategies : List String :=
  ["basic", "withProvider", "buyInterface", "fixedRate",
   "withWallet", "buySell", "allLocks", "altCurrency",
   "directMercuryo", "iframe"]

namespace SimpleSwapTester

/-- What the environment (browser + external site) reports for one probe
attempt of the basic script.  `raises = some msg` means an exception with
string representation `msg` was raised somewhere between navigation and the
end of monitoring (`test-simpleswap.py` lines 35–104), i.e. inside the `try`
of `test_strategy`.  `urlAfterClick` is `page.url` as read at line 93 (gates
the monitoring phase), `finalUrl` is `page.url` as read while building the
result (lines 113–114), `logs` are the console messages captured by the
listener, and `monitorTime` is `int(time.time())` at screenshot time. -/
structure AttemptOutcome where
  raises : Option String
  urlAfterClick : String
  finalUrl : String
  logs : List String
  timestamp : String
  monitorTime : Nat

/-- Per-strategy environment for a whole basic run. -/
def Env : Type := String → AttemptOutcome

/-- `monitor_simpleswap_page` (`test-simpleswap.py` lines 136–183).  The
polling loop (lines 146–178) only prints, so the sole traced effect is the
screenshot taken after the loop (lines 180–182): note the source calls
`page.screenshot(path=...)` without `full_page=True`, so the flag is
`false`. -/
def monitor_simpleswap_page (strategy : String) (unixtime : Nat) : List Event :=
  [Event.screenshot ("/tmp/simpleswap_" ++ strategy ++ "_" ++ toString unixtime ++ ".png") false]

/-- `test_strategy` (`test-simpleswap.py` lines 23–134) for one strategy:
returns the single result dictionary it appends to `self.results`, and the
trace of its side effects.  On the normal path the success flag is computed as
`"simpleswap.io" in page.url or strategy == "iframe"` (line 113); the
monitoring phase runs only for non-iframe strategies whose post-click URL
contains `"simpleswap.io"` (lines 60, 96–104).  On the exception path
(lines 122–131) a failed result with no `final_url` key is built.  The
`finally` block (lines 133–134) closes the context on every path. -/
def test_strategy (o : AttemptOutcome) (strategy : String) (ctxId : Nat) :
    ProbeResult × List Event :=
  match o.raises with
  | some msg =>
    ({ strategy := strategy, attempt := none, timestamp := o.timestamp,
       success := false, final_url := none, error := some msg,
       console_logs := [], notes := ["Exception occurred during testing"] },
     [Event.openCtx ctxId, Event.closeCtx ctxId])
  | none =>
    let monitored := strategy != "iframe" && strContains o.urlAfterClick "simpleswap.io"
    ({ strategy := strategy, attempt := none, timestamp := o.timestamp,
       success := strContains o.finalUrl "simpleswap.io" || strategy == "iframe",
       final_url := some o.finalUrl, error := none,
       console_logs := lastN 10 o.logs, notes := [] },
     Event.openCtx ctxId ::
       ((if monitored then monitor_simpleswap_page strategy o.monitorTime else []) ++
        [Event.closeCtx ctxId]))

/-- The strategy loop of `run_all_tests` (`test-simpleswap.py` lines
193–195): each strategy is probed and then `asyncio.sleep(2)` runs — after
every strategy, the last one included (the loop body has no last-iteration
guard). -/
def run_all_tests_go (env : Env) : List String → Nat → List ProbeResult × List Event
  | [], _ => ([], [])
  | s :: rest, c =>
    let (r, ev) := test_strategy (env s) s c
    let (rs, evs) := run_all_tests_go env rest (c + 1)
    (r :: rs, ev ++ [Event.interSleep 2] ++ evs)

/-- `run_all_tests` (`test-simpleswap.py` lines 185–205) over the fixed
strategy list. -/
def run_all_tests (env : Env) : List ProbeResult × List Event :=
  run_all_tests_go env strategies 0

end SimpleSwapTester

namespace AdaptiveSimpleSwapTester

/-- `error_patterns` of `analyze_console_logs` (`adaptive-tester.py` lines
45–49), in the dictionary's insertion order. -/
def error_patterns : List (String × String) :=
  [("ReferenceError: workingUrl is not defined", "JavaScript variable not properly initialized"),
   ("Refused to frame", "CSP blocks iframe embedding"),
   ("networkidle timeout", "Page taking too long to load")]

/-- `analyze_console_logs` (`adaptive-tester.py` lines 43–57): for each log
line, in order, every matching pattern contributes one `"Found: "`-prefixed
finding. -/
def analyze_console_logs (logs : List String) : List String :=
  logs.flatMap fun log =>
    (error_patterns.filter fun p => strContains log p.1).map fun p => "Found: " ++ p.2

/-- What the environment reports for one polling iteration of
`monitor_simpleswap_with_learning` (`adaptive-tester.py` lines 185–221):
the values of the page's input elements, the rendered page text, and whether
the iteration's body raised (such exceptions are caught by the per-iteration
`except` and modelled as striking before any observation of the
iteration). -/
structure MonitorIterEnv where
  raises : Bool
  inputValues : List String
  pageText : String

/-- Mutable state of the monitoring loop: the two flags and the insights
logged so far. -/
structure MonitorState where
  amountFound : Bool
  providerFound : Bool
  insights : List String

/-- The per-input-element body of observation method 1 (`adaptive-tester.py`
lines 192–198): a non-empty value containing `"19.5"` or `"21.42"` sets the
amount flag, and a `"21.42"` value additionally logs a hijack insight. -/
def monitor_inputs_step (strategy : String) (acc : MonitorState) (value : String) : MonitorState :=
  if value != "" && (strContains value "19.5" || strContains value "21.42") then
    { acc with amountFound := true,
               insights := acc.insights ++
                 (if strContains value "21.42" then
                    [s!"Amount hijack detected in {strategy}: {value}"] else []) }
  else acc

/-- One polling iteration of `monitor_simpleswap_with_learning`
(`adaptive-tester.py` lines 186–221), transcribing the three observation
methods in order: input values (lines 191–198), page text amounts (lines
201–207), provider substrings (lines 210–217).  Note line 210 sets
`provider_found` for `"mercuryo"` only; the `"moonpay"` branch (lines
214–217) prints and, when the flag is already set, logs a competition
insight — it never sets the flag itself. -/
def monitor_iter (strategy : String) (it : MonitorIterEnv) (st : MonitorState) : MonitorState :=
  if it.raises then st
  else
    let st1 := it.inputValues.foldl (monitor_inputs_step strategy) st
    let st2 :=
      if strContains it.pageText "19.5" || strContains it.pageText "21.42" then
        { st1 with amountFound := true,
                   insights := st1.insights ++
                     (if strContains it.pageText "21.42" then
                        [s!"Amount hijack in page text for {strategy}"] else []) }
      else st1
    let st3 :=
      if strContains (strLower it.pageText) "mercuryo" then
        { st2 with providerFound := true }
      else st2
    if strContains (strLower it.pageText) "moonpay" && st3.providerFound then
      { st3 with insights := st3.insights ++ [s!"Provider competition detected in {strategy}"] }
    else st3

/-- Outcome of the monitoring phase: the two flags, the insights it logged,
and its traced side effects. -/
structure MonitorOut where
  amountFound : Bool
  providerFound : Bool
  insights : List String
  events : List Event

/-- `monitor_simpleswap_with_learning` (`adaptive-tester.py` lines 177–235):
15 polling iterations starting from cleared flags, then the summary insights
(lines 224–230), then an unconditional full-page screenshot (lines
233–234). -/
def monitor_simpleswap_with_learning (strategy : String) (iters : Nat → MonitorIterEnv)
    (unixtime : Nat) : MonitorOut :=
  let st := (List.range 15).foldl
    (fun st i => monitor_iter strategy (iters i) st) ⟨false, false, []⟩
  let summary :=
    (if st.amountFound then [s!"Amount monitoring successful in {strategy}"]
     else [s!"No amount found in {strategy} - may need different selectors"]) ++
    (if st.providerFound then [s!"Provider detection successful in {strategy}"] else [])
  { amountFound := st.amountFound, providerFound := st.providerFound,
    insights := st.insights ++ summary,
    events := [Event.screenshot
      ("/tmp/simpleswap_" ++ strategy ++ "_" ++ toString unixtime ++ ".png") true] }

/-- What the environment reports for one probe attempt of the adaptive
script, per (strategy, attempt number).  `raises = some msg` models an
exception raised inside the `try` of `test_strategy_with_learning`
(`adaptive-tester.py` lines 73–159), taken to strike during the initial
navigation/selector wait (before any insight is logged).  `cacheBuster` is
`int(time.time())` from line 75, `logsPreClick` the console messages captured
before the click (line 95), `logs` the messages as seen by the post-click
checks and the result record, `finalUrl` is `page.url` at line 106, and
`monitorIters`/`monitorTime` feed the monitoring phase when it runs. -/
structure AttemptOutcome where
  raises : Option String
  cacheBuster : Nat
  debugPresent : Bool
  logsPreClick : List String
  logs : List String
  finalUrl : String
  timestamp : String
  monitorIters : Nat → MonitorIterEnv
  monitorTime : Nat

/-- Per-(strategy, attempt) environment for a whole adaptive run. -/
def Env : Type := String → Nat → AttemptOutcome

/-- The navigation target of line 76:
`f"{self.base_url}?strategy={strategy}&t={cache_buster}"`. -/
def requestUrl (strategy : String) (cacheBuster : Nat) : String :=
  base_url ++ "?strategy=" ++ strategy ++ "&t=" ++ toString cacheBuster

/-- Everything one execution of the body of `test_strategy_with_learning`
produces before the retry decision resolves: whether the retry condition of
lines 116–123 fired (`retryWanted`, the `"workingUrl is not defined"` match
on the no-redirect branch), the result record the attempt appends when it
does not retry, the insights logged, and the traced events.  When
`retryWanted` is true the no-retry `result` is the same record the
`attempt >= 2` fall-through of the source would append (success false,
no-redirect notes), and `events` are the same `[open, close]` pair either
way, since the retry path closes the context at line 125 and the non-retry
path in the `finally` at line 175. -/
structure StepOut where
  retryWanted : Bool
  result : ProbeResult
  insights : List String
  events : List Event

/-- One execution of the body of `test_strategy_with_learning`
(`adaptive-tester.py` lines 59–175) for a given strategy and attempt number,
up to (but not including) the recursion of line 127.  Branches:
exception (lines 160–172); unchanged URL (lines 107–130) with console-log
analysis and the `workingUrl` retry condition; redirect to a URL containing
`"simpleswap.io"` (lines 132–139) which runs the monitoring phase; any other
URL (lines 141–145). -/
def adaptiveStep (env : Env) (strategy : String) (attempt ctxId : Nat) : StepOut :=
  let o := env strategy attempt
  match o.raises with
  | some msg =>
    { retryWanted := false,
      result := { strategy := strategy, attempt := some attempt, timestamp := o.timestamp,
                  success := false, final_url := none, error := some msg,
                  console_logs := if o.logs.isEmpty then [] else lastN 5 o.logs,
                  notes := ["Exception occurred"] },
      insights := [s!"Exception in {strategy}: {msg}"],
      events := [Event.openCtx ctxId, Event.closeCtx ctxId] }
  | none =>
    let url := requestUrl strategy o.cacheBuster
    let ins0 :=
      if o.debugPresent then [s!"Debug output present in {strategy}"]
      else [s!"No debug output in {strategy} - may indicate loading issue"]
    let jsErrors := o.logsPreClick.filter fun l => strContains (strLower l) "error"
    let ins1 := ins0 ++
      (if jsErrors.isEmpty then []
       else
         let last := jsErrors.getLastD ""
         [s!"Pre-click JS errors in {strategy}: {last}"])
    if o.finalUrl == url then
      let findings := analyze_console_logs o.logs
      let ins2 := ins1 ++ [s!"No redirect occurred in {strategy} - checking for errors"] ++ findings
      let recentErrors := (lastN 5 o.logs).filter fun l => strContains (strLower l) "error"
      let scopeHit := !recentErrors.isEmpty &&
        strContains (recentErrors.getLastD "") "workingUrl is not defined"
      { retryWanted := scopeHit,
        result := { strategy := strategy, attempt := some attempt, timestamp := o.timestamp,
                    success := false, final_url := some o.finalUrl, error := none,
                    console_logs := lastN 10 o.logs,
                    notes := ["No redirect occurred", "Checking console logs for cause"] },
        insights := if scopeHit then ins2 ++ ["JavaScript variable scope issue detected"] else ins2,
        events := [Event.openCtx ctxId, Event.closeCtx ctxId] }
    else if strContains o.finalUrl "simpleswap.io" then
      let m := monitor_simpleswap_with_learning strategy o.monitorIters o.monitorTime
      { retryWanted := false,
        result := { strategy := strategy, attempt := some attempt, timestamp := o.timestamp,
                    success := true, final_url := some o.finalUrl, error := none,
                    console_logs := lastN 10 o.logs, notes := ["Successful redirect"] },
        insights := ins1 ++ [s!"Successful redirect with {strategy}"] ++ m.insights,
        events := Event.openCtx ctxId :: (m.events ++ [Event.closeCtx ctxId]) }
    else
      let u := o.finalUrl
      { retryWanted := false,
        result := { strategy := strategy, attempt := some attempt, timestamp := o.timestamp,
                    success := false, final_url := some o.finalUrl, error := none,
                    console_logs := lastN 10 o.logs,
                    notes := [s!"Unexpected redirect to {u}"] },
        insights := ins1 ++ [s!"Unexpected redirect in {strategy}: {u}"],
        events := [Event.openCtx ctxId, Event.closeCtx ctxId] }

/-- Accumulated output of one (possibly retried) strategy probe, or of a
whole run: the appended results, the logged insight texts, the traced
events, and the next fresh context id. -/
structure StratOut where
  results : List ProbeResult
  insights : List String
  events : List Event
  nextCtx : Nat
deriving DecidableEq

/-- `test_strategy_with_learning` (`adaptive-tester.py` lines 59–175).  When
the retry condition fires on a first attempt (`attempt < 2`, line 123) the
source closes the context, sleeps, and `return`s the recursive call's value
— so the retried first attempt appends *no* result of its own; the `finally`
then closes the already-closed outer context a second time (the trailing
`closeCtx`).  Otherwise the attempt's single result is appended. -/
def test_strategy_with_learning (env : Env) (strategy : String) (attempt ctxId : Nat) :
    StratOut :=
  let st := adaptiveStep env strategy attempt ctxId
  if h : st.retryWanted = true ∧ attempt < 2 then
    let rest := test_strategy_with_learning env strategy (attempt + 1) (ctxId + 1)
    ⟨rest.results, st.insights ++ rest.insights,
     st.events ++ rest.events ++ [Event.closeCtx ctxId], rest.nextCtx⟩
  else
    ⟨[st.result], st.insights, st.events, ctxId + 1⟩
termination_by 2 - attempt
decreasing_by exact Nat.sub_succ_lt_self 2 attempt h.2

/-- `analyze_patterns` (`adaptive-tester.py` lines 273–286), returning the
insight texts it logs about the results so far. -/
def analyze_patterns (results : List ProbeResult) : List String :=
  let successful := results.filter fun r => r.success
  let failed := results.filter fun r => !r.success
  let ins1 :=
    if successful.isEmpty then []
    else
      let n := successful.length
      [s!"Found {n} successful strategies"]
  let jsErrCount :=
    (failed.filter fun r => r.console_logs.any fun l => strContains (strLower l) "error").length
  ins1 ++ (if jsErrCount > 0 then [s!"JavaScript errors in {jsErrCount} strategies - code issue"] else [])

/-- The strategy loop of `run_adaptive_tests` (`adaptive-tester.py` lines
244–257): probe the strategy (always entered with `attempt = 1`), run
`analyze_patterns` on all results so far when this is not the first strategy
(`i > 0`), and sleep only between strategies (`i < len(self.strategies) - 1`).
`acc` carries the results appended by earlier strategies (the source's
`self.results`), `first` tracks `i = 0`. -/
def run_adaptive_go (env : Env) : List String → Nat → List ProbeResult → Bool → StratOut
  | [], c, _, _ => ⟨[], [], [], c⟩
  | s :: rest, c, acc, first =>
    let out := test_strategy_with_learning env s 1 c
    let acc2 := acc ++ out.results
    let patternIns := if first then [] else analyze_patterns acc2
    let sleepEv : List Event := if rest.isEmpty then [] else [Event.interSleep 3]
    let restOut := run_adaptive_go env rest out.nextCtx acc2 false
    ⟨out.results ++ restOut.results, out.insights ++ patternIns ++ restOut.insights,
     out.events ++ sleepEv ++ restOut.events, restOut.nextCtx⟩

/-- `run_adaptive_tests` (`adaptive-tester.py` lines 237–271) over the fixed
strategy list. -/
def run_adaptive_tests (env : Env) : StratOut :=
  run_adaptive_go env strategies 0 [] true

/-- The analysis dictionary built by `final_analysis` (`adaptive-tester.py`
lines 288–307). -/
structure Analysis where
  total_tests : Nat
  successful : Nat
  failed : Nat
  key_insights : List String
  recommendations : List String
deriving DecidableEq

/-- `final_analysis` (`adaptive-tester.py` lines 288–307).  The two
recommendation triggers are Python list-membership tests
(`"..." in [i["insight"] for i in self.learned_insights]`), i.e. *exact*
string equality against some logged insight text, not substring search. -/
def final_analysis (results : List ProbeResult) (insightTexts : List String) : Analysis :=
  let base : Analysis :=
    { total_tests := results.length,
      successful := (results.filter fun r => r.success).length,
      failed := (results.filter fun r => !r.success).length,
      key_insights := [], recommendations := [] }
  let a1 :=
    if insightTexts.contains "JavaScript variable scope issue detected" then
      { base with key_insights := base.key_insights ++ ["JavaScript variable scoping needs fixing"],
                  recommendations := base.recommendations ++ ["Fix workingUrl variable initialization"] }
    else base
  if insightTexts.contains "CSP blocks iframe embedding" then
    { a1 with key_insights := a1.key_insights ++ ["Iframe approach blocked by CSP"],
              recommendations := a1.recommendations ++ ["Use popup window instead of iframe"] }
  else a1

end AdaptiveSimpleSwapTester
namespace AdaptiveSimpleSwapTester

/-- Unfolding of `test_strategy_with_learning` at attempt 2: `attempt < 2`
fails, so a second attempt never retries. -/
theorem tswl_two (env : Env) (s : String) (c : Nat) :
    test_strategy_with_learning env s 2 c =
      ⟨[(adaptiveStep env s 2 c).result], (adaptiveStep env s 2 c).insights,
       (adaptiveStep env s 2 c).events, c + 1⟩ := by
  unfold test_strategy_with_learning
  simp

/-- Unfolding of `test_strategy_with_learning` at attempt 1, the only entry
point the run loop uses: one retry at most, resolved by the attempt-2
unfolding. -/
theorem tswl_one (env : Env) (s : String) (c : Nat) :
    test_strategy_with_learning env s 1 c =
      (if (adaptiveStep env s 1 c).retryWanted = true then
        ⟨[(adaptiveStep env s 2 (c + 1)).result],
         (adaptiveStep env s 1 c).insights ++ (adaptiveStep env s 2 (c + 1)).insights,
         (adaptiveStep env s 1 c).events ++ (adaptiveStep env s 2 (c + 1)).events ++
           [Event.closeCtx c], c + 2⟩
      else ⟨[(adaptiveStep env s 1 c).result], (adaptiveStep env s 1 c).insights,
            (adaptiveStep env s 1 c).events, c + 1⟩) := by
  by_cases h : (adaptiveStep env s 1 c).retryWanted = true
  · rw [if_pos h]
    unfold test_strategy_with_learning
    rw [dif_pos ⟨h, by omega⟩]
    rw [show (1 + 1 : Nat) = 2 from rfl, tswl_two]
  · rw [if_neg h]
    unfold test_strategy_with_learning
    rw [dif_neg (fun hc => h hc.1)]

/-- Every branch of the attempt body records the strategy label and attempt
number it was called with. -/
theorem adaptiveStep_result_tags (env : Env) (s : String) (a c : Nat) :
    (adaptiveStep env s a c).result.strategy = s ∧
    (adaptiveStep env s a c).result.attempt = some a := by
  rcases h : (env s a).raises with _ | msg
  · simp only [adaptiveStep, h]
    split_ifs <;> simp
  · simp [adaptiveStep, h]

end AdaptiveSimpleSwapTester

/-- `walkOk` splits over trace concatenation. -/
theorem walkOk_append (a : List Event) (s : List Nat) (b : List Event) :
    walkOk s (a ++ b) = (walkOk s a && walkOk (openAfter s a) b) := by
  induction a generalizing s with
  | nil => simp [walkOk, openAfter]
  | cons e as ih => simp [walkOk, openAfter, ih, Bool.and_assoc]

/-- `openAfter` splits over trace concatenation. -/
theorem openAfter_append (s : List Nat) (a b : List Event) :
    openAfter s (a ++ b) = openAfter (openAfter s a) b := by
  simp [openAfter]

/-- Events without context activity leave the open multiset unchanged. -/
theorem openAfter_ctxFree (es : List Event) (h : ∀ e ∈ es, ctxFree e = true) (s : List Nat) :
    openAfter s es = s := by
  induction es generalizing s with
  | nil => rfl
  | cons e es ih =>
    have he := h e (by simp)
    have hrest : ∀ x ∈ es, ctxFree x = true := fun x hx => h x (by simp [hx])
    cases e with
    | openCtx i => simp [ctxFree] at he
    | closeCtx i => simp [ctxFree] at he
    | screenshot p fp => simpa [openAfter, openStep] using ih hrest s
    | interSleep n => simpa [openAfter, openStep] using ih hrest s

/-- Events without context activity keep the one-open-context bound. -/
theorem walkOk_ctxFree (es : List Event) (h : ∀ e ∈ es, ctxFree e = true) (s : List Nat)
    (hs : s.length ≤ 1) : walkOk s es = true := by
  induction es generalizing s with
  | nil => rfl
  | cons e es ih =>
    have he := h e (by simp)
    have hrest : ∀ x ∈ es, ctxFree x = true := fun x hx => h x (by simp [hx])
    cases e with
    | openCtx i => simp [ctxFree] at he
    | closeCtx i => simp [ctxFree] at he
    | screenshot p fp => simp [walkOk, openStep, hs, ih hrest s hs]
    | interSleep n => simp [walkOk, openStep, hs, ih hrest s hs]

/-- A probe attempt's trace — open one context, context-free work, close it —
keeps at most one context open and ends with none. -/
theorem walkOk_block (c : Nat) (mid : List Event) (hmid : ∀ e ∈ mid, ctxFree e = true) :
    walkOk [] (Event.openCtx c :: (mid ++ [Event.closeCtx c])) = true ∧
    openAfter [] (Event.openCtx c :: (mid ++ [Event.closeCtx c])) = [] := by
  have h1 : openAfter [c] mid = [c] := openAfter_ctxFree mid hmid [c]
  have h2 : walkOk [c] mid = true := walkOk_ctxFree mid hmid [c] (by simp)
  constructor
  · show (decide (((openStep [] (Event.openCtx c)).length ≤ 1)) &&
      walkOk (openStep [] (Event.openCtx c)) (mid ++ [Event.closeCtx c])) = true
    simp only [openStep]
    rw [walkOk_append, h1, h2]
    simp [walkOk, openStep]
  · show openAfter (openStep [] (Event.openCtx c)) (mid ++ [Event.closeCtx c]) = []
    simp only [openStep]
    rw [openAfter_append, h1]
    simp [openAfter, openStep]

/-- Counting acquisitions distributes over concatenation. -/
theorem countOpen_append (a b : List Event) :
    countOpen (a ++ b) = countOpen a + countOpen b := by
  simp [countOpen]

/-- Counting inter-strategy sleeps distributes over concatenation. -/
theorem countInterSleep_append (a b : List Event) :
    countInterSleep (a ++ b) = countInterSleep a + countInterSleep b := by
  simp [countInterSleep]

/-- Context-free events contribute no acquisitions. -/
theorem countOpen_ctxFree (es : List Event) (h : ∀ e ∈ es, ctxFree e = true) :
    countOpen es = 0 := by
  induction es with
  | nil => rfl
  | cons e es ih =>
    have he := h e (by simp)
    have hrest : ∀ x ∈ es, ctxFree x = true := fun x hx => h x (by simp [hx])
    cases e <;> simp [ctxFree] at he ⊢ <;> simp [countOpen, ih hrest] at *
    <;> exact ih hrest

namespace SimpleSwapTester

/-- The basic probe attempt's trace is one context acquisition, context-free
work (at most a screenshot), and the `finally` release. -/
theorem test_strategy_events_shape (o : AttemptOutcome) (s : String) (c : Nat) :
    ∃ mid, (∀ e ∈ mid, ctxFree e = true) ∧
      (test_strategy o s c).2 = Event.openCtx c :: (mid ++ [Event.closeCtx c]) := by
  rcases h : o.raises with _ | msg
  · simp only [test_strategy, h]
    split_ifs
    · exact ⟨monitor_simpleswap_page s o.monitorTime,
        by simp [monitor_simpleswap_page, ctxFree], rfl⟩
    · exact ⟨[], by simp, rfl⟩
  · exact ⟨[], by simp, by simp [test_strategy, h]⟩

/-- The basic probe attempt's trace contains no inter-strategy sleep. -/
theorem test_strategy_no_sleep (o : AttemptOutcome) (s : String) (c : Nat) :
    countInterSleep (test_strategy o s c).2 = 0 := by
  rcases h : o.raises with _ | msg
  · simp only [test_strategy, h]
    split_ifs <;> simp [countInterSleep, monitor_simpleswap_page]
  · simp [test_strategy, h, countInterSleep]

end SimpleSwapTester

namespace AdaptiveSimpleSwapTester

/-- The monitoring phase's only traced effect is its closing full-page
screenshot. -/
theorem monitor_events_eq (strategy : String) (iters : Nat → MonitorIterEnv) (t : Nat) :
    (monitor_simpleswap_with_learning strategy iters t).events =
      [Event.screenshot ("/tmp/simpleswap_" ++ strategy ++ "_" ++ toString t ++ ".png") true] :=
  rfl

/-- The adaptive attempt body's trace is one context acquisition,
context-free work, and a release. -/
theorem adaptiveStep_events_shape (env : Env) (s : String) (a c : Nat) :
    ∃ mid, (∀ e ∈ mid, ctxFree e = true) ∧
      (adaptiveStep env s a c).events = Event.openCtx c :: (mid ++ [Event.closeCtx c]) := by
  rcases h : (env s a).raises with _ | msg
  · simp only [adaptiveStep, h]
    split_ifs <;>
      first
        | exact ⟨[], by simp, rfl⟩
        | exact ⟨(monitor_simpleswap_with_learning s (env s a).monitorIters
              (env s a).monitorTime).events,
            by simp [monitor_events_eq, ctxFree], rfl⟩
  · exact ⟨[], by simp, by simp [adaptiveStep, h]⟩

/-- Each execution of the adaptive attempt body opens exactly one context. -/
theorem adaptiveStep_countOpen (env : Env) (s : String) (a c : Nat) :
    countOpen (adaptiveStep env s a c).events = 1 := by
  obtain ⟨mid, hmid, hev⟩ := adaptiveStep_events_shape env s a c
  rw [hev]
  show countOpen ([Event.openCtx c] ++ (mid ++ [Event.closeCtx c])) = 1
  rw [countOpen_append, countOpen_append, countOpen_ctxFree mid hmid]
  simp [countOpen]

/-- The adaptive attempt body's trace contains no inter-strategy sleep. -/
theorem adaptiveStep_no_sleep (env : Env) (s : String) (a c : Nat) :
    countInterSleep (adaptiveStep env s a c).events = 0 := by
  rcases h : (env s a).raises with _ | msg
  · simp only [adaptiveStep, h]
    split_ifs <;> simp [countInterSleep, monitor_events_eq]
  · simp [adaptiveStep, h, countInterSleep]

end AdaptiveSimpleSwapTester

/-- Concatenating two traces that each start and end with no open context
and respect the one-context bound yields such a trace. -/
theorem walkOk_concat_zero (a b : List Event)
    (ha : walkOk [] a = true ∧ openAfter [] a = [])
    (hb : walkOk [] b = true ∧ openAfter [] b = []) :
    walkOk [] (a ++ b) = true ∧ openAfter [] (a ++ b) = [] := by
  constructor
  · rw [walkOk_append, ha.1, ha.2, hb.1]; rfl
  · rw [openAfter_append, ha.2, hb.2]

/-- A context-free trace from the empty state is trivially well-behaved. -/
theorem walkOk_zero_ctxFree (a : List Event) (h : ∀ e ∈ a, ctxFree e = true) :
    walkOk [] a = true ∧ openAfter [] a = [] :=
  ⟨walkOk_ctxFree a h [] (by simp), openAfter_ctxFree a h []⟩

namespace SimpleSwapTester

/-- The basic attempt tags its single result with its strategy and stores no
attempt number (the basic result dictionary has no `attempt` key). -/
theorem test_strategy_result_tags (o : AttemptOutcome) (s : String) (c : Nat) :
    (test_strategy o s c).1.strategy = s ∧ (test_strategy o s c).1.attempt = none := by
  rcases h : o.raises with _ | msg <;> simp [test_strategy, h]

/-- The basic run produces exactly one result per input strategy, in order. -/
theorem run_all_tests_go_map (env : Env) :
    ∀ (l : List String) (c : Nat),
      ((run_all_tests_go env l c).1.map fun r => r.strategy) = l := by
  intro l
  induction l with
  | nil => intro c; rfl
  | cons s rest ih =>
    intro c
    simp [run_all_tests_go, (test_strategy_result_tags (env s) s c).1, ih]

/-- The basic run's trace respects the scoped-context contract. -/
theorem run_all_tests_go_ctx (env : Env) :
    ∀ (l : List String) (c : Nat),
      walkOk [] (run_all_tests_go env l c).2 = true ∧
      openAfter [] (run_all_tests_go env l c).2 = [] := by
  intro l
  induction l with
  | nil => intro c; exact ⟨rfl, rfl⟩
  | cons s rest ih =>
    intro c
    have hsplit : (run_all_tests_go env (s :: rest) c).2 =
        (test_strategy (env s) s c).2 ++
          ([Event.interSleep 2] ++ (run_all_tests_go env rest (c + 1)).2) := by
      simp [run_all_tests_go]
    rw [hsplit]
    obtain ⟨mid, hmid, hev⟩ := test_strategy_events_shape (env s) s c
    refine walkOk_concat_zero _ _ ?_
      (walkOk_concat_zero _ _ (walkOk_zero_ctxFree _ (by simp [ctxFree])) (ih (c + 1)))
    rw [hev]
    exact walkOk_block c mid hmid

/-- The basic run sleeps once per strategy — including after the last one. -/
theorem run_all_tests_go_sleeps (env : Env) :
    ∀ (l : List String) (c : Nat),
      countInterSleep (run_all_tests_go env l c).2 = l.length := by
  intro l
  induction l with
  | nil => intro c; rfl
  | cons s rest ih =>
    intro c
    simp only [run_all_tests_go]
    rw [countInterSleep_append, countInterSleep_append, test_strategy_no_sleep, ih]
    simp [countInterSleep]
    omega

end SimpleSwapTester

namespace AdaptiveSimpleSwapTester

/-- The per-strategy adaptive probe appends exactly one result, tagged with
its strategy. -/
theorem tswl_results_one (env : Env) (s : String) (c : Nat) :
    ∃ r, (test_strategy_with_learning env s 1 c).results = [r] ∧ r.strategy = s := by
  rw [tswl_one]
  split_ifs with h
  · exact ⟨_, rfl, (adaptiveStep_result_tags env s 2 (c + 1)).1⟩
  · exact ⟨_, rfl, (adaptiveStep_result_tags env s 1 c).1⟩

/-- Every result of the per-strategy adaptive probe is the attempt body's
result for attempt 1 (no retry) or attempt 2 (after the one retry). -/
theorem tswl_results_mem (env : Env) (s : String) (c : Nat) (r : ProbeResult)
    (hr : r ∈ (test_strategy_with_learning env s 1 c).results) :
    r = (adaptiveStep env s 1 c).result ∨ r = (adaptiveStep env s 2 (c + 1)).result := by
  rw [tswl_one] at hr
  split_ifs at hr with h
  · right; simpa using hr
  · left; simpa using hr

/-- The per-strategy adaptive probe's trace respects the scoped-context
contract: the retried first attempt closes its context before the retry's
context opens, and the redundant second close of the `finally` block is a
no-op. -/
theorem tswl_events_ok (env : Env) (s : String) (c : Nat) :
    walkOk [] (test_strategy_with_learning env s 1 c).events = true ∧
    openAfter [] (test_strategy_with_learning env s 1 c).events = [] := by
  rw [tswl_one]
  split_ifs with h
  · obtain ⟨m1, hm1, he1⟩ := adaptiveStep_events_shape env s 1 c
    obtain ⟨m2, hm2, he2⟩ := adaptiveStep_events_shape env s 2 (c + 1)
    show walkOk [] (((adaptiveStep env s 1 c).events ++ (adaptiveStep env s 2 (c + 1)).events) ++
        [Event.closeCtx c]) = true ∧ _
    refine walkOk_concat_zero _ _ ?_ ?_
    · refine walkOk_concat_zero _ _ ?_ ?_
      · rw [he1]; exact walkOk_block c m1 hm1
      · rw [he2]; exact walkOk_block (c + 1) m2 hm2
    · constructor
      · simp [walkOk, openStep]
      · simp [openAfter, openStep]
  · obtain ⟨m1, hm1, he1⟩ := adaptiveStep_events_shape env s 1 c
    rw [he1]
    exact walkOk_block c m1 hm1

/-- The per-strategy adaptive probe opens at most two contexts (one per
attempt, at most one retry). -/
theorem tswl_countOpen_le (env : Env) (s : String) (c : Nat) :
    countOpen (test_strategy_with_learning env s 1 c).events ≤ 2 := by
  rw [tswl_one]
  split_ifs with h
  · show countOpen (((adaptiveStep env s 1 c).events ++ (adaptiveStep env s 2 (c + 1)).events) ++
        [Event.closeCtx c]) ≤ 2
    rw [countOpen_append, countOpen_append, adaptiveStep_countOpen, adaptiveStep_countOpen]
    simp [countOpen]
  · show countOpen (adaptiveStep env s 1 c).events ≤ 2
    rw [adaptiveStep_countOpen]
    omega

/-- The per-strategy adaptive probe's trace contains no inter-strategy
sleep. -/
theorem tswl_no_sleep (env : Env) (s : String) (c : Nat) :
    countInterSleep (test_strategy_with_learning env s 1 c).events = 0 := by
  rw [tswl_one]
  split_ifs with h
  · show countInterSleep (((adaptiveStep env s 1 c).events ++
        (adaptiveStep env s 2 (c + 1)).events) ++ [Event.closeCtx c]) = 0
    rw [countInterSleep_append, countInterSleep_append, adaptiveStep_no_sleep,
      adaptiveStep_no_sleep]
    simp [countInterSleep]
  · show countInterSleep (adaptiveStep env s 1 c).events = 0
    exact adaptiveStep_no_sleep env s 1 c

end AdaptiveSimpleSwapTester

namespace AdaptiveSimpleSwapTester

/-- The adaptive run produces exactly one result per input strategy, in
order — even for retried strategies, whose first attempt appends nothing. -/
theorem run_adaptive_go_map (env : Env) :
    ∀ (l : List String) (c : Nat) (acc : List ProbeResult) (first : Bool),
      ((run_adaptive_go env l c acc first).results.map fun r => r.strategy) = l := by
  intro l
  induction l with
  | nil => intro c acc first; rfl
  | cons s rest ih =>
    intro c acc first
    obtain ⟨r, hr, hs⟩ := tswl_results_one env s c
    simp [run_adaptive_go, hr, hs, ih]

/-- The adaptive run's trace respects the scoped-context contract. -/
theorem run_adaptive_go_ctx (env : Env) :
    ∀ (l : List String) (c : Nat) (acc : List ProbeResult) (first : Bool),
      walkOk [] (run_adaptive_go env l c acc first).events = true ∧
      openAfter [] (run_adaptive_go env l c acc first).events = [] := by
  intro l
  induction l with
  | nil => intro c acc first; exact ⟨rfl, rfl⟩
  | cons s rest ih =>
    intro c acc first
    have hsplit : (run_adaptive_go env (s :: rest) c acc first).events =
        (test_strategy_with_learning env s 1 c).events ++
          ((if rest.isEmpty then ([] : List Event) else [Event.interSleep 3]) ++
            (run_adaptive_go env rest
              (test_strategy_with_learning env s 1 c).nextCtx
              (acc ++ (test_strategy_with_learning env s 1 c).results) false).events) := by
      simp [run_adaptive_go]
    rw [hsplit]
    refine walkOk_concat_zero _ _ (tswl_events_ok env s c)
      (walkOk_concat_zero _ _ (walkOk_zero_ctxFree _ ?_) (ih _ _ _))
    split_ifs <;> simp [ctxFree]

/-- The adaptive run sleeps exactly once between consecutive strategies and
never after the last. -/
theorem run_adaptive_go_sleeps (env : Env) :
    ∀ (l : List String) (c : Nat) (acc : List ProbeResult) (first : Bool),
      countInterSleep (run_adaptive_go env l c acc first).events = l.length - 1 := by
  intro l
  induction l with
  | nil => intro c acc first; rfl
  | cons s rest ih =>
    intro c acc first
    have hsplit : (run_adaptive_go env (s :: rest) c acc first).events =
        (test_strategy_with_learning env s 1 c).events ++
          ((if rest.isEmpty then ([] : List Event) else [Event.interSleep 3]) ++
            (run_adaptive_go env rest
              (test_strategy_with_learning env s 1 c).nextCtx
              (acc ++ (test_strategy_with_learning env s 1 c).results) false).events) := by
      simp [run_adaptive_go]
    rw [hsplit, countInterSleep_append, countInterSleep_append, tswl_no_sleep, ih]
    cases rest with
    | nil => rfl
    | cons r rs =>
      simp [countInterSleep]
      omega

end AdaptiveSimpleSwapTester

namespace AdaptiveSimpleSwapTester

/-- The input-value observation never touches the provider flag. -/
theorem monitor_inputs_step_pf (strategy : String) (acc : MonitorState) (v : String) :
    (monitor_inputs_step strategy acc v).providerFound = acc.providerFound := by
  unfold monitor_inputs_step
  split_ifs <;> rfl

/-- Folding the input-value observation never touches the provider flag. -/
theorem monitor_inputs_fold_pf (strategy : String) (vals : List String) :
    ∀ st : MonitorState,
      (vals.foldl (monitor_inputs_step strategy) st).providerFound = st.providerFound := by
  induction vals with
  | nil => intro st; rfl
  | cons v vs ih => intro st; simp [ih, monitor_inputs_step_pf]

/-- One polling iteration sets the provider flag exactly when it does not
raise and its page text contains `"mercuryo"` case-insensitively; a
`"moonpay"` match leaves the flag unchanged. -/
theorem monitor_iter_pf (strategy : String) (it : MonitorIterEnv) (st : MonitorState) :
    (monitor_iter strategy it st).providerFound =
      (st.providerFound || (!it.raises && strContains (strLower it.pageText) "mercuryo")) := by
  unfold monitor_iter
  by_cases hr : it.raises = true
  · simp [hr]
  · simp only [Bool.not_eq_true] at hr
    simp only [hr]
    split_ifs <;> simp_all [monitor_inputs_fold_pf]

/-- The provider flag after any iteration sequence is the disjunction of the
per-iteration `"mercuryo"` hits. -/
theorem monitor_fold_pf (strategy : String) (iters : Nat → MonitorIterEnv) :
    ∀ (l : List Nat) (st : MonitorState),
      ((l.foldl (fun st i => monitor_iter strategy (iters i) st) st).providerFound) =
        (st.providerFound ||
          l.any fun i => !(iters i).raises && strContains (strLower (iters i).pageText) "mercuryo") := by
  intro l
  induction l with
  | nil => intro st; simp
  | cons i is ih => intro st; simp [ih, monitor_iter_pf, Bool.or_assoc]

/-- The monitoring phase reports a provider exactly when some of its 15
polling iterations completes and sees `"mercuryo"` in the page text. -/
theorem monitor_pf_iff (strategy : String) (iters : Nat → MonitorIterEnv) (t : Nat) :
    (monitor_simpleswap_with_learning strategy iters t).providerFound = true ↔
      ∃ i, i < 15 ∧ (iters i).raises = false ∧
        strContains (strLower (iters i).pageText) "mercuryo" = true := by
  have hproj : (monitor_simpleswap_with_learning strategy iters t).providerFound =
      ((List.range 15).foldl (fun st i => monitor_iter strategy (iters i) st)
        ⟨false, false, []⟩).providerFound := rfl
  rw [hproj, monitor_fold_pf]
  simp [List.any_eq_true, List.mem_range, Bool.not_eq_true']

/-- Every finding of `analyze_console_logs` carries the `"Found: "` prefix,
so it can never coincide with the two bare insight strings the final
analysis matches on. -/
theorem analyze_console_logs_mem (logs : List String) (f : String)
    (hf : f ∈ analyze_console_logs logs) :
    f = "Found: JavaScript variable not properly initialized" ∨
    f = "Found: CSP blocks iframe embedding" ∨
    f = "Found: Page taking too long to load" := by
  simp only [analyze_console_logs, List.mem_flatMap] at hf
  obtain ⟨log, _, hf⟩ := hf
  simp only [List.mem_map] at hf
  obtain ⟨p, hp, rfl⟩ := hf
  have hmem := (List.mem_filter.mp hp).1
  simp only [error_patterns, List.mem_cons, List.not_mem_nil, or_false] at hmem
  rcases hmem with rfl | rfl | rfl
  · left; rfl
  · right; left; rfl
  · right; right; rfl

end AdaptiveSimpleSwapTester

/-- Claim C5: every browsing context acquired for a probe attempt is closed
on every exit path (normal, exception, and the adaptive retry path, whose
`finally` re-close of the already-closed context is a no-op), and at no point
of either run are two browsing contexts open at once: walking the full event
trace of a run never shows more than one open context and ends with none. -/
theorem c5_scoped_contexts (envB : SimpleSwapTester.Env)
    (envA : AdaptiveSimpleSwapTester.Env) :
    (walkOk [] (SimpleSwapTester.run_all_tests envB).2 = true ∧
     openAfter [] (SimpleSwapTester.run_all_tests envB).2 = []) ∧
    (walkOk [] (AdaptiveSimpleSwapTester.run_adaptive_tests envA).events = true ∧
     openAfter [] (AdaptiveSimpleSwapTester.run_adaptive_tests envA).events = []) :=
  ⟨SimpleSwapTester.run_all_tests_go_ctx envB strategies 0,
   AdaptiveSimpleSwapTester.run_adaptive_go_ctx envA strategies 0 [] true⟩

/-- Claim C6 as stated fails: the basic variant's monitoring screenshot is
*not* full-page (`page.screenshot(path=...)` at `test-simpleswap.py` line 182
omits `full_page=True`); at strategy `"basic"` and unix time 0 its only
screenshot carries the full-page flag `false`. -/
theorem c6_counterexample :
    screenshotEvents (SimpleSwapTester.monitor_simpleswap_page "basic" 0) =
      [("/tmp/simpleswap_basic_0.png", false)] ∧
    ("/tmp/simpleswap_basic_0.png", true) ∉
      screenshotEvents (SimpleSwapTester.monitor_simpleswap_page "basic" 0) := by
  constructor
  · rfl
  · decide

/-- Claim C6 (amended): after the monitoring polling loop completes, both
variants unconditionally take exactly one screenshot at the path
`/tmp/simpleswap_{strategy}_{unixtime}.png` embedding the exact strategy
label passed to the monitoring function — full-page in the adaptive variant,
but viewport-sized (not full-page) in the basic variant. -/
theorem c6_screenshot_path (s : String) (t : Nat)
    (iters : Nat → AdaptiveSimpleSwapTester.MonitorIterEnv) :
    screenshotEvents (SimpleSwapTester.monitor_simpleswap_page s t) =
      [("/tmp/simpleswap_" ++ s ++ "_" ++ toString t ++ ".png", false)] ∧
    screenshotEvents
        (AdaptiveSimpleSwapTester.monitor_simpleswap_with_learning s iters t).events =
      [("/tmp/simpleswap_" ++ s ++ "_" ++ toString t ++ ".png", true)] := by
  constructor
  · rfl
  · rw [AdaptiveSimpleSwapTester.monitor_events_eq]
    rfl

/-- Claim C7 as stated fails: a polling iteration whose page text is exactly
`"moonpay"` (so the moonpay substring matches case-insensitively) leaves the
provider-found flag false — only `"mercuryo"` sets it. -/
theorem c7_counterexample :
    strContains (strLower "moonpay") "moonpay" = true ∧
    (AdaptiveSimpleSwapTester.monitor_simpleswap_with_learning "basic"
        (fun _ => { raises := false, inputValues := [], pageText := "moonpay" })
        0).providerFound = false := by
  constructor
  · decide
  · decide

/-- Claim C7 (amended): the provider-found flag of the monitoring summary is
set if and only if some polling iteration (of the 15) completes without an
exception and its page text contains `"mercuryo"` case-insensitively; a
`"moonpay"` match alone never sets the flag (it only logs a provider
competition insight when the flag is already set). -/
theorem c7_provider_flag (s : String)
    (iters : Nat → AdaptiveSimpleSwapTester.MonitorIterEnv) (t : Nat) :
    (AdaptiveSimpleSwapTester.monitor_simpleswap_with_learning s iters t).providerFound =
      true ↔
    ∃ i, i < 15 ∧ (iters i).raises = false ∧
      strContains (strLower (iters i).pageText) "mercuryo" = true :=
  AdaptiveSimpleSwapTester.monitor_pf_iff s iters t

/-- Claim C8 as stated fails for the basic variant: its run loop
(`test-simpleswap.py` line 195) sleeps after *every* strategy, the last one
included — a run over the fixed ten strategies performs 10 inter-strategy
sleeps, not 9. -/
theorem c8_counterexample :
    countInterSleep (SimpleSwapTester.run_all_tests
        (fun _ => { raises := none, urlAfterClick := "", finalUrl := "", logs := [],
                    timestamp := "", monitorTime := 0 })).2 = 10 ∧
    strategies.length = 10 := by
  constructor
  · decide
  · decide

/-- Claim C8 (amended): for an input list of n strategies the adaptive
variant performs exactly n-1 inter-strategy sleeps (none after the last
strategy), while the basic variant performs exactly n — one after every
strategy, the last included. -/
theorem c8_inter_strategy_sleeps :
    (∀ (envA : AdaptiveSimpleSwapTester.Env) (l : List String) (c : Nat)
        (acc : List ProbeResult) (first : Bool),
      countInterSleep (AdaptiveSimpleSwapTester.run_adaptive_go envA l c acc first).events =
        l.length - 1) ∧
    (∀ (envB : SimpleSwapTester.Env) (l : List String) (c : Nat),
      countInterSleep (SimpleSwapTester.run_all_tests_go envB l c).2 = l.length) :=
  ⟨fun envA l c acc first => AdaptiveSimpleSwapTester.run_adaptive_go_sleeps envA l c acc first,
   fun envB l c => SimpleSwapTester.run_all_tests_go_sleeps envB l c⟩

/-- Claim C2 as stated fails: with an environment whose first `"basic"`
attempt stays on the request URL and logs the `workingUrl` reference error,
the adaptive probe performs two attempts (two context acquisitions) yet
appends exactly one ProbeResult — the retried first attempt returns the
recursive call's value without appending (`adaptive-tester.py` line 127),
so the results sequence is shorter than the attempt count. -/
theorem c2_counterexample :
    countOpen (AdaptiveSimpleSwapTester.test_strategy_with_learning
      (fun _ a =>
        if a = 1 then
          { raises := none, cacheBuster := 0, debugPresent := true, logsPreClick := [],
            logs := ["[error] ReferenceError: workingUrl is not defined"],
            finalUrl := AdaptiveSimpleSwapTester.requestUrl "basic" 0,
            timestamp := "", monitorIters := fun _ => { raises := true, inputValues := [], pageText := "" },
            monitorTime := 0 }
        else
          { raises := none, cacheBuster := 0, debugPresent := true, logsPreClick := [],
            logs := [], finalUrl := "https://example.org/elsewhere",
            timestamp := "", monitorIters := fun _ => { raises := true, inputValues := [], pageText := "" },
            monitorTime := 0 })
      "basic" 1 0).events = 2 ∧
    (AdaptiveSimpleSwapTester.test_strategy_with_learning
      (fun _ a =>
        if a = 1 then
          { raises := none, cacheBuster := 0, debugPresent := true, logsPreClick := [],
            logs := ["[error] ReferenceError: workingUrl is not defined"],
            finalUrl := AdaptiveSimpleSwapTester.requestUrl "basic" 0,
            timestamp := "", monitorIters := fun _ => { raises := true, inputValues := [], pageText := "" },
            monitorTime := 0 }
        else
          { raises := none, cacheBuster := 0, debugPresent := true, logsPreClick := [],
            logs := [], finalUrl := "https://example.org/elsewhere",
            timestamp := "", monitorIters := fun _ => { raises := true, inputValues := [], pageText := "" },
            monitorTime := 0 })
      "basic" 1 0).results.length = 1 := by
  rw [AdaptiveSimpleSwapTester.tswl_one]
  constructor
  · decide
  · decide

/-- Claim C2 (amended): every *completing* probe attempt appends exactly one
ProbeResult, but a first attempt that triggers the adaptive retry appends
none — so both runs end with exactly one result per input strategy
(`strategies.length` entries), and each per-strategy adaptive probe appends
exactly one result whether or not it retried. -/
theorem c2_results_length :
    (∀ envB : SimpleSwapTester.Env,
      (SimpleSwapTester.run_all_tests envB).1.length = strategies.length) ∧
    (∀ envA : AdaptiveSimpleSwapTester.Env,
      (AdaptiveSimpleSwapTester.run_adaptive_tests envA).results.length =
        strategies.length) ∧
    (∀ (envA : AdaptiveSimpleSwapTester.Env) (s : String) (c : Nat),
      (AdaptiveSimpleSwapTester.test_strategy_with_learning envA s 1 c).results.length = 1) := by
  refine ⟨fun envB => ?_, fun envA => ?_, fun envA s c => ?_⟩
  · have h : ((SimpleSwapTester.run_all_tests envB).1.map fun r => r.strategy) =
        strategies := SimpleSwapTester.run_all_tests_go_map envB strategies 0
    simpa using congrArg List.length h
  · have h : ((AdaptiveSimpleSwapTester.run_adaptive_tests envA).results.map
        fun r => r.strategy) = strategies :=
      AdaptiveSimpleSwapTester.run_adaptive_go_map envA strategies 0 [] true
    simpa using congrArg List.length h
  · obtain ⟨r, hr, _⟩ := AdaptiveSimpleSwapTester.tswl_results_one envA s c
    rw [hr]
    rfl

/-- Claim C3: the adaptive variant performs at most two attempts per strategy
per run (the retry fires only on attempt 1, so the recursion stops after one
retry), and the run's results sequence never holds more than two entries for
any one strategy label. -/
theorem c3_at_most_two (envA : AdaptiveSimpleSwapTester.Env) (s : String) (c : Nat)
    (label : String) :
    countOpen (AdaptiveSimpleSwapTester.test_strategy_with_learning envA s 1 c).events ≤ 2 ∧
    ((AdaptiveSimpleSwapTester.run_adaptive_tests envA).results.filter
      (fun r => r.strategy == label)).length ≤ 2 := by
  constructor
  · exact AdaptiveSimpleSwapTester.tswl_countOpen_le envA s c
  · have hmap : ((AdaptiveSimpleSwapTester.run_adaptive_tests envA).results.map
        fun r => r.strategy) = strategies :=
      AdaptiveSimpleSwapTester.run_adaptive_go_map envA strategies 0 [] true
    rw [← List.countP_eq_length_filter]
    have hcp : ((AdaptiveSimpleSwapTester.run_adaptive_tests envA).results.countP
        fun r => r.strategy == label) =
        (((AdaptiveSimpleSwapTester.run_adaptive_tests envA).results.map
          fun r => r.strategy).countP fun x => x == label) := by
      rw [List.countP_map]
      rfl
    rw [hcp, hmap]
    have hnodup : strategies.Nodup := by decide
    have hcount : strategies.count label ≤ 1 := List.nodup_iff_count_le_one.mp hnodup label
    calc (strategies.countP fun x => x == label) = strategies.count label := rfl
      _ ≤ 1 := hcount
      _ ≤ 2 := by omega

/-- Claim C4: an exception raised anywhere inside a probe attempt is caught
at the per-strategy boundary and becomes an appended failed ProbeResult
carrying the exception's string representation in `error`; both run loops
still visit every strategy of the input list in order (the runs are total
functions of the environment — no exception escapes them). -/
theorem c4_exception_containment :
    (∀ (o : SimpleSwapTester.AttemptOutcome) (s : String) (c : Nat) (msg : String),
      o.raises = some msg →
        (SimpleSwapTester.test_strategy o s c).1.success = false ∧
        (SimpleSwapTester.test_strategy o s c).1.error = some msg) ∧
    (∀ (envA : AdaptiveSimpleSwapTester.Env) (s : String) (a c : Nat) (msg : String),
      (envA s a).raises = some msg →
        (AdaptiveSimpleSwapTester.adaptiveStep envA s a c).result.success = false ∧
        (AdaptiveSimpleSwapTester.adaptiveStep envA s a c).result.error = some msg) ∧
    (∀ envB : SimpleSwapTester.Env,
      ((SimpleSwapTester.run_all_tests envB).1.map fun r => r.strategy) = strategies) ∧
    (∀ envA : AdaptiveSimpleSwapTester.Env,
      ((AdaptiveSimpleSwapTester.run_adaptive_tests envA).results.map
        fun r => r.strategy) = strategies) := by
  refine ⟨fun o s c msg h => ?_, fun envA s a c msg h => ?_, fun envB => ?_, fun envA => ?_⟩
  · simp [SimpleSwapTester.test_strategy, h]
  · simp [AdaptiveSimpleSwapTester.adaptiveStep, h]
  · exact SimpleSwapTester.run_all_tests_go_map envB strategies 0
  · exact AdaptiveSimpleSwapTester.run_adaptive_go_map envA strategies 0 [] true

/-- Witness for claim C4 at concrete inputs: a basic attempt raising
`"boom"` yields a failed result, and an adaptive attempt raising `"boom"`
stores it in the error field. -/
theorem c4_witness :
    (SimpleSwapTester.test_strategy ⟨some "boom", "u", "u", [], "t", 0⟩ "basic" 0).1.success =
      false ∧
    (AdaptiveSimpleSwapTester.adaptiveStep
      (fun _ _ => ⟨some "boom", 0, false, [], [], "u", "t", fun _ => ⟨true, [], ""⟩, 0⟩)
      "basic" 1 0).result.error = some "boom" := by
  constructor
  · exact (c4_exception_containment.1 ⟨some "boom", "u", "u", [], "t", 0⟩ "basic" 0 "boom" rfl).1
  · exact (c4_exception_containment.2.1
      (fun _ _ => ⟨some "boom", 0, false, [], [], "u", "t", fun _ => ⟨true, [], ""⟩, 0⟩)
      "basic" 1 0 "boom" rfl).2

/-- Claim C9: an exception-path ProbeResult has no `final_url` key at all —
in both variants it is exactly the record with strategy, (attempt, adaptive
only,) timestamp, `success = false`, the stringified exception in `error`,
the variant's console-log tail, and the fixed exception note. -/
theorem c9_exception_result_fields :
    (∀ (o : SimpleSwapTester.AttemptOutcome) (s : String) (c : Nat) (msg : String),
      o.raises = some msg →
        (SimpleSwapTester.test_strategy o s c).1 =
          { strategy := s, attempt := none, timestamp := o.timestamp, success := false,
            final_url := none, error := some msg, console_logs := [],
            notes := ["Exception occurred during testing"] }) ∧
    (∀ (envA : AdaptiveSimpleSwapTester.Env) (s : String) (a c : Nat) (msg : String),
      (envA s a).raises = some msg →
        (AdaptiveSimpleSwapTester.adaptiveStep envA s a c).result =
          { strategy := s, attempt := some a, timestamp := (envA s a).timestamp,
            success := false, final_url := none, error := some msg,
            console_logs := if (envA s a).logs.isEmpty then [] else lastN 5 (envA s a).logs,
            notes := ["Exception occurred"] }) := by
  refine ⟨fun o s c msg h => ?_, fun envA s a c msg h => ?_⟩
  · simp [SimpleSwapTester.test_strategy, h]
  · simp [AdaptiveSimpleSwapTester.adaptiveStep, h]

/-- Witness for claim C9 at concrete inputs: the exception results of both
variants, fields fully evaluated — in particular `final_url = none`. -/
theorem c9_witness :
    (SimpleSwapTester.test_strategy
        ⟨some "Timeout 10000ms exceeded", "u", "u", ["x"], "ts", 3⟩ "fixedRate" 4).1 =
      { strategy := "fixedRate", attempt := none, timestamp := "ts", success := false,
        final_url := none, error := some "Timeout 10000ms exceeded", console_logs := [],
        notes := ["Exception occurred during testing"] } ∧
    (AdaptiveSimpleSwapTester.adaptiveStep
        (fun _ _ => ⟨some "Timeout 15000ms exceeded", 7, true, [], ["[log] a", "[error] b"],
          "u", "ts2", fun _ => ⟨true, [], ""⟩, 9⟩)
        "allLocks" 1 0).result =
      { strategy := "allLocks", attempt := some 1, timestamp := "ts2", success := false,
        final_url := none, error := some "Timeout 15000ms exceeded",
        console_logs := ["[log] a", "[error] b"], notes := ["Exception occurred"] } := by
  constructor
  · exact c9_exception_result_fields.1
      ⟨some "Timeout 10000ms exceeded", "u", "u", ["x"], "ts", 3⟩ "fixedRate" 4
      "Timeout 10000ms exceeded" rfl
  · rw [c9_exception_result_fields.2
      (fun _ _ => ⟨some "Timeout 15000ms exceeded", 7, true, [], ["[log] a", "[error] b"],
        "u", "ts2", fun _ => ⟨true, [], ""⟩, 9⟩)
      "allLocks" 1 0 "Timeout 15000ms exceeded" rfl]
    decide

namespace AdaptiveSimpleSwapTester

/-- An adaptive attempt whose appended result records the attempt's own
request URL as `final_url` was the unchanged-URL branch, which always sets
`success = false`. -/
theorem adaptiveStep_requrl_success (envA : Env) (s : String) (a c : Nat)
    (h : (adaptiveStep envA s a c).result.final_url =
      some (requestUrl s (envA s a).cacheBuster)) :
    (adaptiveStep envA s a c).result.success = false := by
  rcases hr : (envA s a).raises with _ | msg
  · simp only [adaptiveStep, hr] at h ⊢
    split_ifs at h ⊢ <;> simp_all
  · simp [adaptiveStep, hr] at h

end AdaptiveSimpleSwapTester

/-- Claim C1 as stated fails: in the basic variant the `"iframe"` strategy
forces `success = true` (line 113's `or strategy == "iframe"`) even though
the final URL — here the test page itself — does not contain
`"simpleswap.io"`. -/
theorem c1_counterexample :
    (SimpleSwapTester.test_strategy
        { raises := none,
          urlAfterClick := "https://blinds123.github.io/simpleswap-realtime-test?strategy=iframe",
          finalUrl := "https://blinds123.github.io/simpleswap-realtime-test?strategy=iframe",
          logs := [], timestamp := "ts", monitorTime := 0 } "iframe" 0).1.success = true ∧
    (SimpleSwapTester.test_strategy
        { raises := none,
          urlAfterClick := "https://blinds123.github.io/simpleswap-realtime-test?strategy=iframe",
          finalUrl := "https://blinds123.github.io/simpleswap-realtime-test?strategy=iframe",
          logs := [], timestamp := "ts", monitorTime := 0 } "iframe" 0).1.final_url =
      some "https://blinds123.github.io/simpleswap-realtime-test?strategy=iframe" ∧
    strContains "https://blinds123.github.io/simpleswap-realtime-test?strategy=iframe"
      "simpleswap.io" = false := by
  refine ⟨?_, ?_, ?_⟩ <;> decide

/-- Claim C1 (amended): in the basic variant a normal-path result has
`success = (final_url contains "simpleswap.io" OR strategy = "iframe")` — so
the iframe strategy is marked successful regardless of its final URL — and an
exception-path result has `success = false`; in the adaptive variant every
appended result whose `final_url` equals its attempt's original request URL
has `success = false`. -/
theorem c1_success_flag :
    (∀ (o : SimpleSwapTester.AttemptOutcome) (s : String) (c : Nat),
      o.raises = none →
        (SimpleSwapTester.test_strategy o s c).1.success =
          (strContains o.finalUrl "simpleswap.io" || s == "iframe") ∧
        (SimpleSwapTester.test_strategy o s c).1.final_url = some o.finalUrl) ∧
    (∀ (o : SimpleSwapTester.AttemptOutcome) (s : String) (c : Nat) (msg : String),
      o.raises = some msg → (SimpleSwapTester.test_strategy o s c).1.success = false) ∧
    (∀ (envA : AdaptiveSimpleSwapTester.Env) (s : String) (c a : Nat) (r : ProbeResult),
      r ∈ (AdaptiveSimpleSwapTester.test_strategy_with_learning envA s 1 c).results →
      r.attempt = some a →
      r.final_url = some (AdaptiveSimpleSwapTester.requestUrl s (envA s a).cacheBuster) →
      r.success = false) := by
  refine ⟨fun o s c h => ?_, fun o s c msg h => ?_, fun envA s c a r hmem hatt hurl => ?_⟩
  · simp [SimpleSwapTester.test_strategy, h]
  · simp [SimpleSwapTester.test_strategy, h]
  · rcases AdaptiveSimpleSwapTester.tswl_results_mem envA s c r hmem with h | h
    · subst h
      have ha := (AdaptiveSimpleSwapTester.adaptiveStep_result_tags envA s 1 c).2
      rw [ha] at hatt
      have ha1 : a = 1 := by injection hatt.symm
      subst ha1
      exact AdaptiveSimpleSwapTester.adaptiveStep_requrl_success envA s 1 c hurl
    · subst h
      have ha := (AdaptiveSimpleSwapTester.adaptiveStep_result_tags envA s 2 (c + 1)).2
      rw [ha] at hatt
      have ha2 : a = 2 := by injection hatt.symm
      subst ha2
      exact AdaptiveSimpleSwapTester.adaptiveStep_requrl_success envA s 2 (c + 1) hurl

/-- Witness for claim C1 at concrete inputs: a non-iframe redirect to
SimpleSwap, a raising attempt, and an adaptive no-redirect attempt whose
single appended result carries the request URL and `success = false`. -/
theorem c1_witness :
    (SimpleSwapTester.test_strategy ⟨none, "x", "https://simpleswap.io/ok", [], "ts", 0⟩
        "basic" 0).1.success =
      (strContains "https://simpleswap.io/ok" "simpleswap.io" || "basic" == "iframe") ∧
    (SimpleSwapTester.test_strategy ⟨some "boom", "x", "y", [], "ts", 0⟩
        "basic" 0).1.success = false ∧
    { strategy := "buySell", attempt := some 1, timestamp := "ts", success := false,
      final_url := some (AdaptiveSimpleSwapTester.requestUrl "buySell" 5), error := none,
      console_logs := ([] : List String),
      notes := ["No redirect occurred", "Checking console logs for cause"] : ProbeResult }.success =
      false := by
  refine ⟨?_, ?_, ?_⟩
  · exact (c1_success_flag.1 ⟨none, "x", "https://simpleswap.io/ok", [], "ts", 0⟩ "basic" 0 rfl).1
  · exact c1_success_flag.2.1 ⟨some "boom", "x", "y", [], "ts", 0⟩ "basic" 0 "boom" rfl
  · exact c1_success_flag.2.2
      (fun _ _ => ⟨none, 5, false, [], [], AdaptiveSimpleSwapTester.requestUrl "buySell" 5,
        "ts", fun _ => ⟨true, [], ""⟩, 0⟩)
      "buySell" 0 1 _
      (by rw [AdaptiveSimpleSwapTester.tswl_one]; decide)
      rfl rfl

/-- Claim C10: the final analysis recommends fixing the `workingUrl`
initialization exactly when some logged insight is *exactly* the string
`"JavaScript variable scope issue detected"`, and recommends a popup window
exactly when some insight is exactly `"CSP blocks iframe embedding"`;
`analyze_console_logs` findings all carry the `"Found: "` prefix, so they can
never trigger a recommendation. -/
theorem c10_recommendation_triggers :
    (∀ (results : List ProbeResult) (insights : List String),
      ("Fix workingUrl variable initialization" ∈
          (AdaptiveSimpleSwapTester.final_analysis results insights).recommendations ↔
        "JavaScript variable scope issue detected" ∈ insights) ∧
      ("Use popup window instead of iframe" ∈
          (AdaptiveSimpleSwapTester.final_analysis results insights).recommendations ↔
        "CSP blocks iframe embedding" ∈ insights)) ∧
    (∀ (logs : List String) (f : String),
      f ∈ AdaptiveSimpleSwapTester.analyze_console_logs logs →
        f ≠ "JavaScript variable scope issue detected" ∧
        f ≠ "CSP blocks iframe embedding") := by
  constructor
  · intro results insights
    unfold AdaptiveSimpleSwapTester.final_analysis
    by_cases h1 : insights.contains "JavaScript variable scope issue detected" = true <;>
      by_cases h2 : insights.contains "CSP blocks iframe embedding" = true <;>
        simp_all [List.elem_iff]
  · intro logs f hf
    rcases AdaptiveSimpleSwapTester.analyze_console_logs_mem logs f hf with rfl | rfl | rfl <;>
      exact ⟨by decide, by decide⟩

/-- Witness for claim C10 at concrete inputs: the exact insight string
triggers its recommendation, and a `"Refused to frame"` console finding —
which only *contains* the trigger phrase — does not equal it. -/
theorem c10_witness :
    ("Fix workingUrl variable initialization" ∈
        (AdaptiveSimpleSwapTester.final_analysis []
          ["JavaScript variable scope issue detected"]).recommendations ↔
      "JavaScript variable scope issue detected" ∈
        ["JavaScript variable scope issue detected"]) ∧
    ("Found: CSP blocks iframe embedding" ≠ "JavaScript variable scope issue detected" ∧
     "Found: CSP blocks iframe embedding" ≠ "CSP blocks iframe embedding") := by
  constructor
  · exact (c10_recommendation_triggers.1 [] ["JavaScript variable scope issue detected"]).1
  · exact c10_recommendation_triggers.2 ["[error] Refused to frame https"]
      "Found: CSP blocks iframe embedding" (by decide)
